import Mathlib

/-!
Verification development for the ent generated query builder and derived
relational schema (package `ent`, generated `ItemQuery` builder, and package
`migrate`, generated schema tables).

Shallow embedding conventions:
* Machine `int` values (limits, offsets) are embedded as `Int`.
* The `Item` entity has a single column, its string identifier (`item.Columns
  = []string{"id"}`, `ItemQuery.IDs` returns `[]string`), so a database row /
  graph vertex is just an `Item := String`.
* `predicate.Item` values are opaque functions mutating a `*sql.Selector`
  (resp. a traversal) by adding one conjunctive filter condition; they are
  embedded semantically as row filters `Item → Bool`.
* `Order` values add one ordering key; they are embedded as boolean "less or
  equal" comparators `Item → Item → Bool`, applied lexicographically.
* Heap objects (`*ItemQuery`, `*sql.Selector`) are embedded as immutable
  records; a Go method that mutates its receiver and returns it is embedded as
  a function returning the updated record.  Terminal operations that mutate the
  receiver (`First`, `Only`) return the mutated builder together with their
  result so the receiver mutation stays observable.
* Transport / driver errors are out of scope (the spec treats drivers as given
  primitives), so the only failure paths modelled are the ones the generated
  code itself produces.
-/

namespace Ent

/-- A row of the `items` table / an `item` vertex: the entity has only its
identifier column, a string id. -/
abbrev Item := String

/-- A `predicate.Item`: adds one conjunctive WHERE / `has` condition, embedded
as its row-filter semantics. -/
abbrev Pred := Item → Bool

/-- An `Order` step: adds one ordering key, embedded as a boolean
less-or-equal comparator. -/
abbrev Order := Item → Item → Bool

/-- Dialect identifiers from package `dialect` (`dialect.MySQL`,
`dialect.SQLite`, `dialect.Gremlin`); any other driver string falls into the
default branch of the generated switches. -/
inductive Dialect where
  | mysql
  | sqlite
  | gremlin
  | other (s : String)
deriving DecidableEq

/-- Embedded `config`: the builder only consults `iq.driver.Dialect()`. -/
structure Config where
  dialect : Dialect

/-- Constant `math.MaxInt32` used by `sqlQuery` and `gremlinQuery` as the
default limit when an offset is present without an explicit limit. -/
def maxInt32 : Int := 2147483647

/-- Table and label constants of package `item`: `item.Table`,
`item.Label`. -/
def itemTable : String := "items"

/-- Label constant `item.Label`. -/
def itemLabel : String := "item"

/-- Column list `item.Columns`. -/
def itemColumns : List String := ["id"]

/-- Identifier column `item.FieldID`. -/
def itemFieldID : String := "id"

/-- Argument of `Selector.Count`: either a plain `COUNT(*)`-style count or
`sql.Distinct(cols...)`. -/
inductive CountArg where
  | star
  | distinct (cols : List String)
deriving Repr

/-- Embedded `sql.Selector`: the parts of the SQL builder that the generated
`ItemQuery` code constructs.  WHERE conditions and ORDER keys are kept
semantically (see `Pred`, `Order`); column qualification by table alias is
dropped. -/
structure Selector where
  table : String
  columns : List String
  wheres : List Pred
  orders : List Order
  offset : Option Int := none
  limit : Option Int := none
  distinct : Bool := false
  count : Option CountArg := none

/-- One step of a gremlin `dsl.Traversal`, as appended by `gremlinQuery`,
`gremlinCount` and `gremlinExist`.  The `order` step carries its `by`
modulators (the loop `v.Order(); for _, p := range iq.order { p(v) }`). -/
inductive GStep where
  | V
  | hasLabel (l : String)
  | has (p : Pred)
  | order (os : List Order)
  | range (lo hi : Int)
  | glimit (n : Int)
  | dedup
  | count
  | hasNext

/-- The `ItemQuery` builder state (fields of the generated struct). -/
structure ItemQuery where
  config : Config
  limit : Option Int := none
  offset : Option Int := none
  order : List Order := []
  unique : List String := []
  predicates : List Pred := []
  sql : Option Selector := none
  gremlin : Option (List GStep) := none

/-- Method `Where`: appends predicates to the builder. -/
def ItemQuery.Where (iq : ItemQuery) (ps : List Pred) : ItemQuery :=
  { iq with predicates := iq.predicates ++ ps }

/-- Method `Limit`: sets the builder's limit. -/
def ItemQuery.Limit (iq : ItemQuery) (l : Int) : ItemQuery :=
  { iq with limit := some l }

/-- Method `Offset`: sets the builder's offset. -/
def ItemQuery.Offset (iq : ItemQuery) (o : Int) : ItemQuery :=
  { iq with offset := some o }

/-- Method `Order`: appends ordering steps to the builder. -/
def ItemQuery.Order (iq : ItemQuery) (os : List Order) : ItemQuery :=
  { iq with order := iq.order ++ os }

/-- Method `Clone`: rebuilds the struct, copying the three accumulated lists
into fresh slices (`append([]T{}, iq.xs...)`), and cloning the intermediate
queries (value copies under our immutable embedding). -/
def ItemQuery.Clone (iq : ItemQuery) : ItemQuery :=
  { config := iq.config
    limit := iq.limit
    offset := iq.offset
    order := [] ++ iq.order
    unique := ([] : List String) ++ iq.unique
    predicates := ([] : List Pred) ++ iq.predicates
    sql := iq.sql
    gremlin := iq.gremlin }

/-- Function `sqlQuery`: builds the selector — fresh `SELECT cols FROM items`
(or the stored intermediate selector re-selected on the item columns), then
the predicate loop, the order loop, the offset branch (which installs the
mandatory `math.MaxInt32` default limit), then the limit branch. -/
def ItemQuery.sqlQuery (iq : ItemQuery) : Selector :=
  let base : Selector :=
    match iq.sql with
    | none => { table := itemTable, columns := itemColumns, wheres := [], orders := [] }
    | some s => { s with columns := itemColumns }
  let s := { base with
             wheres := base.wheres ++ iq.predicates
             orders := base.orders ++ iq.order }
  let s :=
    match iq.offset with
    | some o => { s with offset := some o, limit := some maxInt32 }
    | none => s
  match iq.limit with
  | some l => { s with limit := some l }
  | none => s

/-- The selector executed by `sqlAll`: `sqlQuery`, with `Distinct()` applied
when the unique-column override is empty. -/
def ItemQuery.sqlAllSelector (iq : ItemQuery) : Selector :=
  let s := iq.sqlQuery
  if iq.unique.isEmpty then { s with distinct := true } else s

/-- The column set `sqlCount` counts over: `[]string{item.FieldID}` by
default, replaced by `iq.unique` when that override is non-empty. -/
def ItemQuery.uniqueCols (iq : ItemQuery) : List String :=
  if iq.unique.isEmpty then [itemFieldID] else iq.unique

/-- The selector executed by `sqlCount`: `sqlQuery` with
`Count(sql.Distinct(cols...))` applied. -/
def ItemQuery.sqlCountSelector (iq : ItemQuery) : Selector :=
  { iq.sqlQuery with count := some (CountArg.distinct iq.uniqueCols) }

/-- Function `gremlinQuery`: start from `g.V().HasLabel(item.Label)` (or the
cloned intermediate traversal), then predicates, then the order block, then
the limit/offset switch, then `Dedup()` when the unique override is empty. -/
def ItemQuery.gremlinQuery (iq : ItemQuery) : List GStep :=
  let v : List GStep :=
    match iq.gremlin with
    | none => [GStep.V, GStep.hasLabel itemLabel]
    | some g => g
  let v := v ++ iq.predicates.map GStep.has
  let v := v ++ (match iq.order with
    | [] => []
    | os => [GStep.order os])
  let v := v ++ (match iq.limit, iq.offset with
    | some l, some o => [GStep.range o (o + l)]
    | none, some o => [GStep.range o maxInt32]
    | some l, none => [GStep.glimit l]
    | none, none => [])
  v ++ (if iq.unique.isEmpty then [GStep.dedup] else [])

/-- The traversal executed by `gremlinCount`: `gremlinQuery().Count()`. -/
def ItemQuery.gremlinCountSteps (iq : ItemQuery) : List GStep :=
  iq.gremlinQuery ++ [GStep.count]

/-- The traversal executed by `gremlinExist`: `gremlinQuery().HasNext()`. -/
def ItemQuery.gremlinExistSteps (iq : ItemQuery) : List GStep :=
  iq.gremlinQuery ++ [GStep.hasNext]

/-! Evaluation semantics.  A database is the list of stored items (rows of the
`items` table / vertices labelled `item`), in storage order. -/

/-- Conjunction of the accumulated predicates. -/
def conj (ps : List Pred) (x : Item) : Bool :=
  ps.all (fun p => p x)

/-- Insertion into a list sorted by `le`. -/
def insertLE (le : Item → Item → Bool) (x : Item) : List Item → List Item
  | [] => [x]
  | y :: ys => if le x y then x :: y :: ys else y :: insertLE le x ys

/-- Insertion sort by `le`. -/
def sortLE (le : Item → Item → Bool) : List Item → List Item
  | [] => []
  | x :: xs => insertLE le x (sortLE le xs)

/-- Lexicographic comparator for a sequence of ORDER keys: strictly smaller by
the first key, or tied on it and smaller by the remaining keys. -/
def lexLE (os : List Order) (a b : Item) : Bool :=
  match os with
  | [] => true
  | o :: rest => (o a b && !(o b a)) || (o a b && o b a && lexLE rest a b)

/-- Semantics of the accumulated ordering: sort by the lexicographic
combination of the keys; an empty key list leaves the storage order. -/
def applyOrders (os : List Order) (xs : List Item) : List Item :=
  match os with
  | [] => xs
  | _ => sortLE (lexLE os) xs

/-- Deduplicate when the flag is set (`SELECT DISTINCT` / `Dedup()`). -/
def dedupIf (b : Bool) (xs : List Item) : List Item :=
  if b then xs.dedup else xs

/-- Index denoted by an optional offset (absent = 0; negative clamps to 0). -/
def natIdx (i : Option Int) : Nat :=
  (i.getD 0).toNat

/-- Truncation by an optional limit. -/
def takeLimit {α : Type} (l : Option Int) (xs : List α) : List α :=
  match l with
  | none => xs
  | some n => xs.take n.toNat

/-- Row semantics of a plain (non-count) selector: WHERE filtering, DISTINCT,
ORDER BY, then OFFSET and LIMIT.  The FROM table is the single `items`
table. -/
def Selector.rows (s : Selector) (db : List Item) : List Item :=
  takeLimit s.limit
    ((applyOrders s.orders (dedupIf s.distinct (db.filter (conj s.wheres)))).drop
      (natIdx s.offset))

/-- Result list of `sqlAll` (scanning and driver transport elided). -/
def ItemQuery.sqlAllEval (iq : ItemQuery) (db : List Item) : List Item :=
  iq.sqlAllSelector.rows db

/-- Value of a column of an item: only the identifier column is stored. -/
def colVal (i : Item) (c : String) : String :=
  if c = itemFieldID then i else ""

/-- Tuple of the values of the given columns. -/
def tupleOf (cols : List String) (i : Item) : List String :=
  cols.map (colVal i)

/-- `COUNT(DISTINCT cols...)` over a row list. -/
def distinctCountOn (cols : List String) (xs : List Item) : Int :=
  ((xs.map (tupleOf cols)).dedup).length

/-- Errors produced by the generated builder itself (transport errors are out
of scope).  `notFound` / `notSingular` carry the entity label, as
`ErrNotFound{item.Label}` / `ErrNotSingular{item.Label}` do. -/
inductive Err where
  | notFound (label : String)
  | notSingular (label : String)
  | noRows
  | unsupported
deriving DecidableEq

/-- Result of `sqlCount`: the aggregate value of the count selector.  SQL
aggregation produces a single result row, to which the selector's OFFSET and
LIMIT clauses still apply; when no row is left, the generated code fails with
"ent: no rows found". -/
def ItemQuery.sqlCountEval (iq : ItemQuery) (db : List Item) : Except Err Int :=
  let s := iq.sqlCountSelector
  let n := distinctCountOn iq.uniqueCols (db.filter (conj s.wheres))
  match takeLimit s.limit (([n]).drop (natIdx s.offset)) with
  | [] => Except.error Err.noRows
  | m :: _ => Except.ok m

/-- Result of `sqlExist`: `n, err := iq.sqlCount(ctx)`, errors propagated
(wrapped with context, which preserves their classification), else `n > 0`. -/
def ItemQuery.sqlExistEval (iq : ItemQuery) (db : List Item) : Except Err Bool :=
  match iq.sqlCountEval db with
  | Except.error e => Except.error e
  | Except.ok n => Except.ok (decide (n > 0))

/-- Semantics of one traversal step on the current element stream. -/
def gstepEval (db : List Item) (cur : List Item) : GStep → List Item
  | GStep.V => db
  | GStep.hasLabel l => if l = itemLabel then cur else []
  | GStep.has p => cur.filter p
  | GStep.order os => applyOrders os cur
  | GStep.range lo hi => (cur.drop lo.toNat).take (hi - lo).toNat
  | GStep.glimit n => cur.take n.toNat
  | GStep.dedup => cur.dedup
  | GStep.count => cur
  | GStep.hasNext => cur

/-- Semantics of a traversal: fold the steps over the vertex store. -/
def gstepsEval (db : List Item) (steps : List GStep) : List Item :=
  steps.foldl (gstepEval db) db

/-- Result list of `gremlinAll` (response decoding elided). -/
def ItemQuery.gremlinAllEval (iq : ItemQuery) (db : List Item) : List Item :=
  gstepsEval db iq.gremlinQuery

/-- Result of `gremlinCount`: the element count of the compiled traversal. -/
def ItemQuery.gremlinCountEval (iq : ItemQuery) (db : List Item) : Int :=
  (iq.gremlinAllEval db).length

/-- Result of `gremlinExist`: `HasNext()` of the compiled traversal. -/
def ItemQuery.gremlinExistEval (iq : ItemQuery) (db : List Item) : Bool :=
  !(iq.gremlinAllEval db).isEmpty

/-- Method `All`: dispatch on the dialect, default branch "ent: unsupported
dialect". -/
def ItemQuery.All (iq : ItemQuery) (db : List Item) : Except Err (List Item) :=
  match iq.config.dialect with
  | Dialect.mysql => Except.ok (iq.sqlAllEval db)
  | Dialect.sqlite => Except.ok (iq.sqlAllEval db)
  | Dialect.gremlin => Except.ok (iq.gremlinAllEval db)
  | Dialect.other _ => Except.error Err.unsupported

/-- Method `Count`: dispatch on the dialect. -/
def ItemQuery.Count (iq : ItemQuery) (db : List Item) : Except Err Int :=
  match iq.config.dialect with
  | Dialect.mysql => iq.sqlCountEval db
  | Dialect.sqlite => iq.sqlCountEval db
  | Dialect.gremlin => Except.ok (iq.gremlinCountEval db)
  | Dialect.other _ => Except.error Err.unsupported

/-- Method `Exist`: dispatch on the dialect. -/
def ItemQuery.Exist (iq : ItemQuery) (db : List Item) : Except Err Bool :=
  match iq.config.dialect with
  | Dialect.mysql => iq.sqlExistEval db
  | Dialect.sqlite => iq.sqlExistEval db
  | Dialect.gremlin => Except.ok (iq.gremlinExistEval db)
  | Dialect.other _ => Except.error Err.unsupported

/-- Method `First`: `iq.Limit(1).All(ctx)` — the receiver itself is mutated by
`Limit(1)`, so the mutated builder is returned alongside the result; empty
result means `&ErrNotFound{item.Label}`, otherwise `is[0]`. -/
def ItemQuery.First (iq : ItemQuery) (db : List Item) :
    ItemQuery × Except Err Item :=
  let iq1 := iq.Limit 1
  (iq1,
    match iq1.All db with
    | Except.error e => Except.error e
    | Except.ok [] => Except.error (Err.notFound itemLabel)
    | Except.ok (x :: _) => Except.ok x)

/-- Method `Only`: `iq.Limit(2).All(ctx)` — receiver mutated by `Limit(2)`;
result classified by `switch len(is)`: 1 row is returned, 0 rows is
`ErrNotFound`, more is `ErrNotSingular`. -/
def ItemQuery.Only (iq : ItemQuery) (db : List Item) :
    ItemQuery × Except Err Item :=
  let iq2 := iq.Limit 2
  (iq2,
    match iq2.All db with
    | Except.error e => Except.error e
    | Except.ok [x] => Except.ok x
    | Except.ok [] => Except.error (Err.notFound itemLabel)
    | Except.ok _ => Except.error (Err.notSingular itemLabel))

/-- Rows matched by the builder on the relational backend, before any limit
truncation: WHERE-filtered, deduplicated when no unique override is set,
ordered, offset applied. -/
def ItemQuery.sqlMatches (iq : ItemQuery) (db : List Item) : List Item :=
  (applyOrders iq.order (dedupIf iq.unique.isEmpty (db.filter (conj iq.predicates)))).drop
    (natIdx iq.offset)

/-- Elements matched by the builder on the traversal backend, before the range
truncation and the trailing dedup step. -/
def ItemQuery.gremlinMatches (iq : ItemQuery) (db : List Item) : List Item :=
  (applyOrders iq.order (db.filter (conj iq.predicates))).drop (natIdx iq.offset)

/-! Derived relational schema: the generated `migrate` package data
(`schema.Column`, `schema.ForeignKey`, `schema.Table` values).  Foreign-key
`RefTable` pointers, wired up in `init()`, are embedded as table names. -/

/-- Scalar kinds of package `field` used by the generated schema. -/
inductive FieldType where
  | int
  | int8
  | int16
  | int32
  | int64
  | float64
  | string
  | bool
  | time
  | enum
deriving DecidableEq

/-- Embedded `schema.Column`.  Default-value expressions are recorded as a
presence flag; `Enums` lists the enum values. -/
structure Column where
  name : String
  ftype : FieldType
  unique : Bool := false
  increment : Bool := false
  nullable : Bool := false
  hasDefault : Bool := false
  enums : List String := []
deriving DecidableEq

/-- Referential actions of package `schema` (`schema.Cascade`,
`schema.SetNull`, ...). -/
inductive RefOption where
  | restrict
  | noAction
  | cascade
  | setNull
  | setDefault
deriving DecidableEq

/-- Embedded `schema.ForeignKey`; `refTable` is the name of the table the
`init()` function wires into the `RefTable` pointer. -/
structure ForeignKey where
  symbol : String
  columns : List Column
  refTable : String
  refColumns : List Column
  onDelete : RefOption
deriving DecidableEq

/-- Embedded `schema.Index`. -/
structure Index where
  name : String
  unique : Bool
  columns : List Column
deriving DecidableEq

/-- Embedded `schema.Table`. -/
structure Table where
  name : String
  columns : List Column
  primaryKey : List Column
  foreignKeys : List ForeignKey := []
  indexes : List Index := []
deriving DecidableEq

/-- Column `CardsColumns[0]`. -/
def cardsColId : Column := { name := "id", ftype := FieldType.int, increment := true }

/-- Column `CardsColumns[4]`. -/
def cardsColOwner : Column :=
  { name := "owner_id", ftype := FieldType.int, unique := true, nullable := true }

/-- The `CardsColumns` slice. -/
def CardsColumns : List Column :=
  [cardsColId,
   { name := "created_at", ftype := FieldType.time },
   { name := "updated_at", ftype := FieldType.time },
   { name := "number", ftype := FieldType.string },
   cardsColOwner]

/-- Column `CommentsColumns[0]`. -/
def commentsColId : Column := { name := "id", ftype := FieldType.int, increment := true }

/-- The `CommentsColumns` slice. -/
def CommentsColumns : List Column :=
  [commentsColId,
   { name := "unique_int", ftype := FieldType.int, unique := true },
   { name := "unique_float", ftype := FieldType.float64, unique := true },
   { name := "nillable_int", ftype := FieldType.int, nullable := true }]

/-- Column `FieldTypesColumns[0]`. -/
def fieldTypesColId : Column := { name := "id", ftype := FieldType.int, increment := true }

/-- The `FieldTypesColumns` slice. -/
def FieldTypesColumns : List Column :=
  [fieldTypesColId,
   { name := "int", ftype := FieldType.int },
   { name := "int8", ftype := FieldType.int8 },
   { name := "int16", ftype := FieldType.int16 },
   { name := "int32", ftype := FieldType.int32 },
   { name := "int64", ftype := FieldType.int64 },
   { name := "optional_int", ftype := FieldType.int, nullable := true },
   { name := "optional_int8", ftype := FieldType.int8, nullable := true },
   { name := "optional_int16", ftype := FieldType.int16, nullable := true },
   { name := "optional_int32", ftype := FieldType.int32, nullable := true },
   { name := "optional_int64", ftype := FieldType.int64, nullable := true },
   { name := "nillable_int", ftype := FieldType.int, nullable := true },
   { name := "nillable_int8", ftype := FieldType.int8, nullable := true },
   { name := "nillable_int16", ftype := FieldType.int16, nullable := true },
   { name := "nillable_int32", ftype := FieldType.int32, nullable := true },
   { name := "nillable_int64", ftype := FieldType.int64, nullable := true },
   { name := "validate_optional_int32", ftype := FieldType.int32, nullable := true },
   { name := "state", ftype := FieldType.enum, nullable := true, enums := ["on", "off"] }]

/-- Column `FilesColumns[0]`. -/
def filesColId : Column := { name := "id", ftype := FieldType.int, increment := true }

/-- Column `FilesColumns[1]`. -/
def filesColSize : Column := { name := "size", ftype := FieldType.int, hasDefault := true }

/-- Column `FilesColumns[2]`. -/
def filesColName : Column := { name := "name", ftype := FieldType.string }

/-- Column `FilesColumns[3]`. -/
def filesColUser : Column := { name := "user", ftype := FieldType.string, nullable := true }

/-- Column `FilesColumns[5]`. -/
def filesColType : Column := { name := "type_id", ftype := FieldType.int, nullable := true }

/-- Column `FilesColumns[6]`. -/
def filesColGroupFile : Column :=
  { name := "group_file_id", ftype := FieldType.int, nullable := true }

/-- Column `FilesColumns[7]`. -/
def filesColOwner : Column := { name := "owner_id", ftype := FieldType.int, nullable := true }

/-- The `FilesColumns` slice. -/
def FilesColumns : List Column :=
  [filesColId, filesColSize, filesColName, filesColUser,
   { name := "group", ftype := FieldType.string, nullable := true },
   filesColType, filesColGroupFile, filesColOwner]

/-- Column `FileTypesColumns[0]`. -/
def fileTypesColId : Column := { name := "id", ftype := FieldType.int, increment := true }

/-- The `FileTypesColumns` slice. -/
def FileTypesColumns : List Column :=
  [fileTypesColId,
   { name := "name", ftype := FieldType.string, unique := true }]

/-- Column `GroupsColumns[0]`. -/
def groupsColId : Column := { name := "id", ftype := FieldType.int, increment := true }

/-- Column `GroupsColumns[6]`. -/
def groupsColInfo : Column := { name := "info_id", ftype := FieldType.int, nullable := true }

/-- The `GroupsColumns` slice. -/
def GroupsColumns : List Column :=
  [groupsColId,
   { name := "active", ftype := FieldType.bool, hasDefault := true },
   { name := "expire", ftype := FieldType.time },
   { name := "type", ftype := FieldType.string, nullable := true },
   { name := "max_users", ftype := FieldType.int, nullable := true, hasDefault := true },
   { name := "name", ftype := FieldType.string },
   groupsColInfo]

/-- Column `GroupInfosColumns[0]`. -/
def groupInfosColId : Column := { name := "id", ftype := FieldType.int, increment := true }

/-- The `GroupInfosColumns` slice. -/
def GroupInfosColumns : List Column :=
  [groupInfosColId,
   { name := "desc", ftype := FieldType.string },
   { name := "max_users", ftype := FieldType.int, hasDefault := true }]

/-- Column `ItemsColumns[0]`. -/
def itemsColId : Column := { name := "id", ftype := FieldType.int, increment := true }

/-- The `ItemsColumns` slice. -/
def ItemsColumns : List Column := [itemsColId]

/-- Column `NodesColumns[0]`. -/
def nodesColId : Column := { name := "id", ftype := FieldType.int, increment := true }

/-- Column `NodesColumns[2]`. -/
def nodesColPrev : Column :=
  { name := "prev_id", ftype := FieldType.int, unique := true, nullable := true }

/-- The `NodesColumns` slice. -/
def NodesColumns : List Column :=
  [nodesColId,
   { name := "value", ftype := FieldType.int, nullable := true },
   nodesColPrev]

/-- Column `PetsColumns[0]`. -/
def petsColId : Column := { name := "id", ftype := FieldType.int, increment := true }

/-- Column `PetsColumns[2]`. -/
def petsColOwner : Column := { name := "owner_id", ftype := FieldType.int, nullable := true }

/-- Column `PetsColumns[3]`. -/
def petsColTeam : Column :=
  { name := "team_id", ftype := FieldType.int, unique := true, nullable := true }

/-- The `PetsColumns` slice. -/
def PetsColumns : List Column :=
  [petsColId,
   { name := "name", ftype := FieldType.string },
   petsColOwner, petsColTeam]

/-- Column `UsersColumns[0]`. -/
def usersColId : Column := { name := "id", ftype := FieldType.int, increment := true }

/-- Column `UsersColumns[6]`. -/
def usersColGroupBlocked : Column :=
  { name := "group_blocked_id", ftype := FieldType.int, nullable := true }

/-- Column `UsersColumns[7]`: the relation column of the unique
inverse+forward self-edge "spouse". -/
def usersColSpouse : Column :=
  { name := "user_spouse_id", ftype := FieldType.int, unique := true, nullable := true }

/-- Column `UsersColumns[8]`. -/
def usersColParent : Column := { name := "parent_id", ftype := FieldType.int, nullable := true }

/-- The `UsersColumns` slice. -/
def UsersColumns : List Column :=
  [usersColId,
   { name := "age", ftype := FieldType.int },
   { name := "name", ftype := FieldType.string },
   { name := "last", ftype := FieldType.string, hasDefault := true },
   { name := "nickname", ftype := FieldType.string, unique := true, nullable := true },
   { name := "phone", ftype := FieldType.string, unique := true, nullable := true },
   usersColGroupBlocked, usersColSpouse, usersColParent]

/-- Column `UserGroupsColumns[0]`. -/
def userGroupsColUser : Column := { name := "user_id", ftype := FieldType.int }

/-- Column `UserGroupsColumns[1]`. -/
def userGroupsColGroup : Column := { name := "group_id", ftype := FieldType.int }

/-- The `UserGroupsColumns` slice. -/
def UserGroupsColumns : List Column := [userGroupsColUser, userGroupsColGroup]

/-- Column `UserFriendsColumns[0]`. -/
def userFriendsColUser : Column := { name := "user_id", ftype := FieldType.int }

/-- Column `UserFriendsColumns[1]`: disambiguated from "user_id" via the
singularized edge name "friends". -/
def userFriendsColFriend : Column := { name := "friend_id", ftype := FieldType.int }

/-- The `UserFriendsColumns` slice. -/
def UserFriendsColumns : List Column := [userFriendsColUser, userFriendsColFriend]

/-- Column `UserFollowingColumns[0]`. -/
def userFollowingColUser : Column := { name := "user_id", ftype := FieldType.int }

/-- Column `UserFollowingColumns[1]`. -/
def userFollowingColFollower : Column := { name := "follower_id", ftype := FieldType.int }

/-- The `UserFollowingColumns` slice. -/
def UserFollowingColumns : List Column := [userFollowingColUser, userFollowingColFollower]

/-- The `cards` table. -/
def CardsTable : Table :=
  { name := "cards"
    columns := CardsColumns
    primaryKey := [cardsColId]
    foreignKeys :=
      [{ symbol := "cards_users_card"
         columns := [cardsColOwner]
         refTable := "users"
         refColumns := [usersColId]
         onDelete := RefOption.setNull }] }

/-- The `comments` table. -/
def CommentsTable : Table :=
  { name := "comments"
    columns := CommentsColumns
    primaryKey := [commentsColId]
    foreignKeys := [] }

/-- The `field_types` table. -/
def FieldTypesTable : Table :=
  { name := "field_types"
    columns := FieldTypesColumns
    primaryKey := [fieldTypesColId]
    foreignKeys := [] }

/-- The `files` table, with its three indexes. -/
def FilesTable : Table :=
  { name := "files"
    columns := FilesColumns
    primaryKey := [filesColId]
    foreignKeys :=
      [{ symbol := "files_file_types_files"
         columns := [filesColType]
         refTable := "file_types"
         refColumns := [fileTypesColId]
         onDelete := RefOption.setNull },
       { symbol := "files_groups_files"
         columns := [filesColGroupFile]
         refTable := "groups"
         refColumns := [groupsColId]
         onDelete := RefOption.setNull },
       { symbol := "files_users_files"
         columns := [filesColOwner]
         refTable := "users"
         refColumns := [usersColId]
         onDelete := RefOption.setNull }]
    indexes :=
      [{ name := "name_size", unique := false, columns := [filesColName, filesColSize] },
       { name := "name_user", unique := true, columns := [filesColName, filesColUser] },
       { name := "name_owner_id_type_id", unique := true,
         columns := [filesColName, filesColOwner, filesColType] }] }

/-- The `file_types` table. -/
def FileTypesTable : Table :=
  { name := "file_types"
    columns := FileTypesColumns
    primaryKey := [fileTypesColId]
    foreignKeys := [] }

/-- The `groups` table. -/
def GroupsTable : Table :=
  { name := "groups"
    columns := GroupsColumns
    primaryKey := [groupsColId]
    foreignKeys :=
      [{ symbol := "groups_group_infos_info"
         columns := [groupsColInfo]
         refTable := "group_infos"
         refColumns := [groupInfosColId]
         onDelete := RefOption.setNull }] }

/-- The `group_infos` table. -/
def GroupInfosTable : Table :=
  { name := "group_infos"
    columns := GroupInfosColumns
    primaryKey := [groupInfosColId]
    foreignKeys := [] }

/-- The `items` table. -/
def ItemsTable : Table :=
  { name := "items"
    columns := ItemsColumns
    primaryKey := [itemsColId]
    foreignKeys := [] }

/-- The `nodes` table (self-referencing linked list). -/
def NodesTable : Table :=
  { name := "nodes"
    columns := NodesColumns
    primaryKey := [nodesColId]
    foreignKeys :=
      [{ symbol := "nodes_nodes_next"
         columns := [nodesColPrev]
         refTable := "nodes"
         refColumns := [nodesColId]
         onDelete := RefOption.setNull }] }

/-- The `pets` table. -/
def PetsTable : Table :=
  { name := "pets"
    columns := PetsColumns
    primaryKey := [petsColId]
    foreignKeys :=
      [{ symbol := "pets_users_pets"
         columns := [petsColOwner]
         refTable := "users"
         refColumns := [usersColId]
         onDelete := RefOption.setNull },
       { symbol := "pets_users_team"
         columns := [petsColTeam]
         refTable := "users"
         refColumns := [usersColId]
         onDelete := RefOption.setNull }] }

/-- The `users` table. -/
def UsersTable : Table :=
  { name := "users"
    columns := UsersColumns
    primaryKey := [usersColId]
    foreignKeys :=
      [{ symbol := "users_groups_blocked"
         columns := [usersColGroupBlocked]
         refTable := "groups"
         refColumns := [groupsColId]
         onDelete := RefOption.setNull },
       { symbol := "users_users_spouse"
         columns := [usersColSpouse]
         refTable := "users"
         refColumns := [usersColId]
         onDelete := RefOption.setNull },
       { symbol := "users_users_parent"
         columns := [usersColParent]
         refTable := "users"
         refColumns := [usersColId]
         onDelete := RefOption.setNull }] }

/-- The synthetic `user_groups` many-to-many join table. -/
def UserGroupsTable : Table :=
  { name := "user_groups"
    columns := UserGroupsColumns
    primaryKey := [userGroupsColUser, userGroupsColGroup]
    foreignKeys :=
      [{ symbol := "user_groups_user_id"
         columns := [userGroupsColUser]
         refTable := "users"
         refColumns := [usersColId]
         onDelete := RefOption.cascade },
       { symbol := "user_groups_group_id"
         columns := [userGroupsColGroup]
         refTable := "groups"
         refColumns := [groupsColId]
         onDelete := RefOption.cascade }] }

/-- The synthetic self-referential `user_friends` join table. -/
def UserFriendsTable : Table :=
  { name := "user_friends"
    columns := UserFriendsColumns
    primaryKey := [userFriendsColUser, userFriendsColFriend]
    foreignKeys :=
      [{ symbol := "user_friends_user_id"
         columns := [userFriendsColUser]
         refTable := "users"
         refColumns := [usersColId]
         onDelete := RefOption.cascade },
       { symbol := "user_friends_friend_id"
         columns := [userFriendsColFriend]
         refTable := "users"
         refColumns := [usersColId]
         onDelete := RefOption.cascade }] }

/-- The synthetic self-referential `user_following` join table. -/
def UserFollowingTable : Table :=
  { name := "user_following"
    columns := UserFollowingColumns
    primaryKey := [userFollowingColUser, userFollowingColFollower]
    foreignKeys :=
      [{ symbol := "user_following_user_id"
         columns := [userFollowingColUser]
         refTable := "users"
         refColumns := [usersColId]
         onDelete := RefOption.cascade },
       { symbol := "user_following_follower_id"
         columns := [userFollowingColFollower]
         refTable := "users"
         refColumns := [usersColId]
         onDelete := RefOption.cascade }] }

/-- The `Tables` slice: all tables of the derived schema, in declaration
order. -/
def Tables : List Table :=
  [CardsTable, CommentsTable, FieldTypesTable, FilesTable, FileTypesTable,
   GroupsTable, GroupInfosTable, ItemsTable, NodesTable, PetsTable,
   UsersTable, UserGroupsTable, UserFriendsTable, UserFollowingTable]

/-- Column set named by the count claim: the identifier column, or the
explicitly configured unique-column set when one is present. -/
def claimCountCols (iq : ItemQuery) : List String :=
  if iq.unique = [] then [itemFieldID] else iq.unique

/-- Statement of the count claim at one builder state: the relational count
selector counts `DISTINCT` over the claimed column set, and the traversal
count deduplicates its elements before counting (a distinct count rather than
a raw count). -/
def countDistinctClaimAt (iq : ItemQuery) : Prop :=
  iq.sqlCountSelector.count = some (CountArg.distinct (claimCountCols iq)) ∧
  GStep.dedup ∈ iq.gremlinCountSteps

/-- A synthetic join table is recognizable by its two-column composite
primary key (entity tables have the single `id` primary key). -/
def isJoinTable (t : Table) : Bool :=
  t.primaryKey.length == 2

/-- A self-referential join table: a join table whose two foreign keys point
at the same table. -/
def isSelfRefJoin (t : Table) : Bool :=
  isJoinTable t &&
    (match t.foreignKeys with
     | [f1, f2] => f1.refTable == f2.refTable
     | _ => false)

/-- Cardinality kinds of a resolved relation (spec §3). -/
inductive RelKind where
  | oneToOne
  | oneToMany
  | manyToOne
  | manyToMany
  | unknown
deriving DecidableEq

/-- Modelled from the spec: the graph resolver is not under `src/`, so the
cardinality of a resolved non-M2M relation column is read off its storage
shape per §4.1 — a unique relation column admits at most one carrier per
target (one-to-one), a non-unique relation column makes its carrying table
the "many" side (many-to-one). -/
def fkRelKind (c : Column) : RelKind :=
  if c.unique then RelKind.oneToOne else RelKind.manyToOne

/-- Modelled from the spec: the dual cardinality borne by the inverse edge of
a resolved relation (OneToOne↔OneToOne, OneToMany↔ManyToOne,
ManyToMany↔ManyToMany). -/
def mirrorKind : RelKind → RelKind
  | RelKind.oneToOne => RelKind.oneToOne
  | RelKind.oneToMany => RelKind.manyToOne
  | RelKind.manyToOne => RelKind.oneToMany
  | RelKind.manyToMany => RelKind.manyToMany
  | RelKind.unknown => RelKind.unknown

/-! Helper lemmas about the evaluation pipeline. -/

theorem perm_insertLE (le : Item → Item → Bool) (x : Item) :
    ∀ l : List Item, List.Perm (insertLE le x l) (x :: l) := by
  intro l
  induction l with
  | nil => simp [insertLE]
  | cons y ys ih =>
    by_cases h : le x y
    · simp [insertLE, h]
    · simp only [insertLE, h, if_false]
      exact (List.Perm.cons y ih).trans (List.Perm.swap x y ys)

theorem perm_sortLE (le : Item → Item → Bool) :
    ∀ l : List Item, List.Perm (sortLE le l) l := by
  intro l
  induction l with
  | nil => simp [sortLE]
  | cons x xs ih =>
    exact (perm_insertLE le x (sortLE le xs)).trans (List.Perm.cons x ih)

theorem perm_applyOrders (os : List Order) (xs : List Item) :
    List.Perm (applyOrders os xs) xs := by
  cases os with
  | nil => simp [applyOrders]
  | cons o rest => exact perm_sortLE _ xs

theorem nodup_applyOrders (os : List Order) {xs : List Item} (h : xs.Nodup) :
    (applyOrders os xs).Nodup :=
  ((perm_applyOrders os xs).nodup_iff).mpr h

theorem dedupIf_eq_nil_iff (b : Bool) (xs : List Item) :
    dedupIf b xs = [] ↔ xs = [] := by
  cases b <;> simp [dedupIf, List.dedup_eq_nil]

theorem dedupIf_of_nodup (b : Bool) {xs : List Item} (h : xs.Nodup) :
    dedupIf b xs = xs := by
  cases b <;> simp [dedupIf, h.dedup]

theorem length_dedupIf_le (b : Bool) (xs : List Item) :
    (dedupIf b xs).length ≤ xs.length := by
  cases b
  · simp [dedupIf]
  · simpa [dedupIf] using (List.dedup_sublist xs).length_le

theorem hasSteps_foldl (db : List Item) (ps : List Pred) (cur : List Item) :
    (ps.map GStep.has).foldl (gstepEval db) cur = cur.filter (conj ps) := by
  induction ps generalizing cur with
  | nil =>
    simp only [List.map_nil, List.foldl_nil]
    rw [List.filter_eq_self.mpr]
    intro a _
    simp [conj]
  | cons p rest ih =>
    simp only [List.map_cons, List.foldl_cons, gstepEval, ih, List.filter_filter]
    apply List.filter_congr
    intro x _
    simp [conj, Bool.and_comm]

theorem sqlQuery_of_no_base (iq : ItemQuery) (h : iq.sql = none) :
    iq.sqlQuery =
      { table := itemTable, columns := itemColumns, wheres := iq.predicates,
        orders := iq.order, offset := iq.offset,
        limit := (match iq.limit, iq.offset with
                  | some l, _ => some l
                  | none, some _ => some maxInt32
                  | none, none => none) } := by
  unfold ItemQuery.sqlQuery
  rw [h]
  cases hl : iq.limit <;> cases ho : iq.offset <;> simp

theorem sqlAll_limit_eval (iq : ItemQuery) (h : iq.sql = none) (n : Int)
    (db : List Item) :
    (iq.Limit n).sqlAllEval db = (iq.sqlMatches db).take n.toNat := by
  have hq : (iq.Limit n).sql = none := h
  unfold ItemQuery.sqlAllEval ItemQuery.sqlAllSelector
  rw [sqlQuery_of_no_base _ hq]
  show Selector.rows _ db = _
  by_cases hu : iq.unique.isEmpty <;>
    cases ho : iq.offset <;>
      simp [ItemQuery.Limit, hu, ho, Selector.rows, takeLimit,
        ItemQuery.sqlMatches, dedupIf, natIdx]

theorem gstepsEval_append (db : List Item) (l1 l2 : List GStep) (cur : List Item) :
    (l1 ++ l2).foldl (gstepEval db) cur =
      l2.foldl (gstepEval db) (l1.foldl (gstepEval db) cur) :=
  List.foldl_append ..

theorem gremlinQuery_foldl (iq : ItemQuery) (h : iq.gremlin = none) (db : List Item) :
    iq.gremlinAllEval db =
      dedupIf iq.unique.isEmpty
        ((match iq.limit, iq.offset with
          | some l, some o => fun xs : List Item => (xs.drop o.toNat).take (o + l - o).toNat
          | none, some o => fun xs => (xs.drop o.toNat).take (maxInt32 - o).toNat
          | some l, none => fun xs => xs.take l.toNat
          | none, none => fun xs => xs)
          (applyOrders iq.order (db.filter (conj iq.predicates)))) := by
  unfold ItemQuery.gremlinAllEval ItemQuery.gremlinQuery gstepsEval
  rw [h]
  cases hl : iq.limit <;> cases ho : iq.offset <;>
    cases hord : iq.order <;> by_cases hu : iq.unique.isEmpty <;>
      simp [gstepsEval_append, hasSteps_foldl, gstepEval, itemLabel, dedupIf, hu,
        applyOrders, hord]

theorem gremlinAll_limit_eval (iq : ItemQuery) (h : iq.gremlin = none) (n : Int)
    (db : List Item) :
    (iq.Limit n).gremlinAllEval db =
      dedupIf iq.unique.isEmpty ((iq.gremlinMatches db).take n.toNat) := by
  have hq : (iq.Limit n).gremlin = none := h
  rw [gremlinQuery_foldl _ hq]
  show dedupIf iq.unique.isEmpty _ = _
  cases ho : iq.offset <;>
    simp [ItemQuery.Limit, ho, ItemQuery.gremlinMatches, natIdx]

theorem bang_isEmpty_eq_decide_pos (xs : List Item) :
    (!xs.isEmpty) = decide (0 < (xs.length : Int)) := by
  cases xs <;> simp [List.isEmpty]

theorem length_dedup_le (xs : List Item) : xs.dedup.length ≤ xs.length :=
  (List.dedup_sublist xs).length_le

theorem length_sqlAllEval_limit (iq : ItemQuery) (n : Int) (db : List Item) :
    ((iq.Limit n).sqlAllEval db).length ≤ n.toNat := by
  obtain ⟨c, lim, off, ord, uniq, preds, sqlb, gremb⟩ := iq
  unfold ItemQuery.sqlAllEval ItemQuery.sqlAllSelector ItemQuery.sqlQuery Selector.rows
  cases sqlb <;> cases off <;> by_cases hu : uniq.isEmpty <;>
    simp [ItemQuery.Limit, hu, takeLimit, List.length_take]

theorem length_gremlinAllEval_limit (iq : ItemQuery) (n : Int) (db : List Item) :
    ((iq.Limit n).gremlinAllEval db).length ≤ n.toNat := by
  obtain ⟨c, lim, off, ord, uniq, preds, sqlb, gremb⟩ := iq
  unfold ItemQuery.gremlinAllEval ItemQuery.gremlinQuery gstepsEval
  cases gremb <;> cases off <;> cases ord <;>
    by_cases hu : uniq.isEmpty <;>
      simp [ItemQuery.Limit, hu, List.foldl_append, gstepEval, add_sub_cancel_left]
  all_goals
    exact le_trans (length_dedup_le _) (by simp [List.length_take])

/-! Claim theorems. -/

/-- C2: on every builder state and every backend, the exists terminal
operation returns precisely the answer "does the count terminal operation on
the same builder state return a value greater than 0" — errors included, with
no special case for empty-predicate queries (the state is universally
quantified, predicates included). -/
theorem c2_exist_iff_count_pos (iq : ItemQuery) (db : List Item) :
    iq.Exist db = (iq.Count db).map (fun n => decide (0 < n)) := by
  unfold ItemQuery.Exist ItemQuery.Count
  cases iq.config.dialect with
  | mysql =>
    simp only [ItemQuery.sqlExistEval]
    cases iq.sqlCountEval db <;> simp [Except.map]
  | sqlite =>
    simp only [ItemQuery.sqlExistEval]
    cases iq.sqlCountEval db <;> simp [Except.map]
  | gremlin =>
    simp only [Except.map, ItemQuery.gremlinExistEval, ItemQuery.gremlinCountEval]
    rw [bang_isEmpty_eq_decide_pos]
  | other s => simp [Except.map]

/-- C4: whenever the builder has an offset and no explicit limit, the
relational selector carries the limit `math.MaxInt32` (never "no limit"), and
the compiled traversal contains the step `Range(offset, math.MaxInt32)`. -/
theorem c4_offset_without_limit (iq : ItemQuery) (o : Int)
    (ho : iq.offset = some o) (hl : iq.limit = none) :
    iq.sqlQuery.limit = some maxInt32 ∧
    GStep.range o maxInt32 ∈ iq.gremlinQuery := by
  constructor
  · unfold ItemQuery.sqlQuery
    rw [hl, ho]
  · unfold ItemQuery.gremlinQuery
    rw [hl, ho]
    cases iq.gremlin <;> cases iq.order <;> by_cases hu : iq.unique.isEmpty <;>
      simp [hu]

/-- C4 witness: a builder with offset 5 and no limit, on concrete data. -/
theorem c4_offset_without_limit_witness :
    (({ config := ⟨Dialect.sqlite⟩, offset := some 5 } : ItemQuery)).sqlQuery.limit
        = some maxInt32 ∧
    GStep.range 5 maxInt32 ∈
      (({ config := ⟨Dialect.sqlite⟩, offset := some 5 } : ItemQuery)).gremlinQuery :=
  c4_offset_without_limit _ 5 rfl rfl

/-- C5: for a builder with no intermediate query, the selector executed by
`sqlAll` is DISTINCT exactly when the unique-column override is empty, and
the compiled traversal contains a `dedup` step exactly when the override is
empty. -/
theorem c5_dedup_iff_no_unique (iq : ItemQuery)
    (hs : iq.sql = none) (hg : iq.gremlin = none) :
    (iq.sqlAllSelector.distinct = true ↔ iq.unique = []) ∧
    (GStep.dedup ∈ iq.gremlinQuery ↔ iq.unique = []) := by
  constructor
  · unfold ItemQuery.sqlAllSelector
    rw [sqlQuery_of_no_base iq hs]
    by_cases hu : iq.unique.isEmpty
    · simp_all [List.isEmpty_iff]
    · simp only [List.isEmpty_iff] at hu
      cases iq.limit <;> cases iq.offset <;> simp [hu, List.isEmpty_iff]
  · unfold ItemQuery.gremlinQuery
    rw [hg]
    by_cases hu : iq.unique.isEmpty
    · simp_all [List.isEmpty_iff]
    · simp only [List.isEmpty_iff] at hu
      cases iq.order <;> cases iq.limit <;> cases iq.offset <;>
        simp [hu, List.isEmpty_iff]

/-- C5 witness: the default builder state deduplicates on both backends. -/
theorem c5_dedup_iff_no_unique_witness :
    ((({ config := ⟨Dialect.sqlite⟩ } : ItemQuery)).sqlAllSelector.distinct = true ↔
      (({ config := ⟨Dialect.sqlite⟩ } : ItemQuery)).unique = []) ∧
    (GStep.dedup ∈ (({ config := ⟨Dialect.sqlite⟩ } : ItemQuery)).gremlinQuery ↔
      (({ config := ⟨Dialect.sqlite⟩ } : ItemQuery)).unique = []) :=
  c5_dedup_iff_no_unique _ rfl rfl

/-- C6: Clone copies the order, unique and predicate lists; accumulating
predicates on the clone extends the clone's own list only, and a builder that
accumulated P1 and P2 directly and a clone given P1 then P2 separately agree
on every count, over every backend and database. -/
theorem c6_clone_independent (iq : ItemQuery) (p1 p2 : Pred) (db : List Item) :
    iq.Clone.order = iq.order ∧
    iq.Clone.unique = iq.unique ∧
    iq.Clone.predicates = iq.predicates ∧
    ((iq.Clone.Where [p1]).Where [p2]).predicates = iq.predicates ++ [p1, p2] ∧
    ((iq.Clone.Where [p1]).Where [p2]).Count db = (iq.Where [p1, p2]).Count db := by
  have h : (iq.Clone.Where [p1]).Where [p2] = iq.Where [p1, p2] := by
    simp [ItemQuery.Clone, ItemQuery.Where]
  refine ⟨rfl, rfl, rfl, ?_, by rw [h]⟩
  simp [ItemQuery.Clone, ItemQuery.Where]

/-- C1 counterexample: with the non-empty unique-column override `["name"]`,
the compiled traversal of the graph-traversal count contains no dedup step at
all — the traversal count is a raw count, so the claim's "distinct count on
both backends for any unique-column override" fails at this state. -/
theorem c1_count_distinct_counterexample :
    ¬ countDistinctClaimAt { config := ⟨Dialect.gremlin⟩, unique := ["name"] } := by
  intro h
  have h2 := h.2
  simp [ItemQuery.gremlinCountSteps, ItemQuery.gremlinQuery, List.isEmpty] at h2

/-- C1 amended: the relational backend always counts
`DISTINCT` over the identifier column, or over the configured unique-column
set when one is present; the traversal backend deduplicates its elements
before counting exactly when no unique-column override is present (with a
non-empty override it performs a raw traversal count). -/
theorem c1_count_distinct_amended (iq : ItemQuery) (hg : iq.gremlin = none) :
    iq.sqlCountSelector.count = some (CountArg.distinct (claimCountCols iq)) ∧
    (GStep.dedup ∈ iq.gremlinCountSteps ↔ iq.unique = []) := by
  constructor
  · unfold ItemQuery.sqlCountSelector ItemQuery.uniqueCols claimCountCols
    by_cases hu : iq.unique.isEmpty
    · simp_all [List.isEmpty_iff]
    · simp only [List.isEmpty_iff] at hu
      simp [hu]
  · unfold ItemQuery.gremlinCountSteps ItemQuery.gremlinQuery
    rw [hg]
    by_cases hu : iq.unique.isEmpty
    · simp_all [List.isEmpty_iff]
    · simp only [List.isEmpty_iff] at hu
      cases iq.order <;> cases iq.limit <;> cases iq.offset <;>
        simp [hu, List.isEmpty_iff]

/-- C1 amended witness: the default builder state counts distinct over the
identifier column on both backends. -/
theorem c1_count_distinct_amended_witness :
    (({ config := ⟨Dialect.gremlin⟩ } : ItemQuery)).sqlCountSelector.count
        = some (CountArg.distinct (claimCountCols { config := ⟨Dialect.gremlin⟩ })) ∧
    (GStep.dedup ∈ (({ config := ⟨Dialect.gremlin⟩ } : ItemQuery)).gremlinCountSteps ↔
      (({ config := ⟨Dialect.gremlin⟩ } : ItemQuery)).unique = []) :=
  c1_count_distinct_amended _ rfl

theorem all_limit_length (iq : ItemQuery) (n : Int) (db : List Item)
    (xs : List Item) (h : (iq.Limit n).All db = Except.ok xs) :
    xs.length ≤ n.toNat := by
  unfold ItemQuery.All at h
  rw [show (iq.Limit n).config = iq.config from rfl] at h
  revert h
  cases iq.config.dialect <;> intro h <;> simp at h <;> rw [← h]
  · exact length_sqlAllEval_limit iq n db
  · exact length_sqlAllEval_limit iq n db
  · exact length_gremlinAllEval_limit iq n db

/-- C10: First and Only mutate the builder they are called on — the builder
returned from the call is the receiver with its limit field permanently set
to 1 (resp. 2), and every subsequent All on that same builder returns at most
1 (resp. 2) rows, on any backend. -/
theorem c10_first_only_mutate (iq : ItemQuery) (db : List Item) :
    (iq.First db).1 = iq.Limit 1 ∧
    (iq.Only db).1 = iq.Limit 2 ∧
    (iq.First db).1.limit = some 1 ∧
    (iq.Only db).1.limit = some 2 ∧
    (∀ xs, ((iq.First db).1).All db = Except.ok xs → xs.length ≤ 1) ∧
    (∀ xs, ((iq.Only db).1).All db = Except.ok xs → xs.length ≤ 2) := by
  refine ⟨rfl, rfl, rfl, rfl, ?_, ?_⟩
  · intro xs hxs
    exact all_limit_length iq 1 db xs hxs
  · intro xs hxs
    exact all_limit_length iq 2 db xs hxs

/-- C10 witness: a fresh sqlite builder over the store ["a", "b"]: First
leaves the builder with limit 1, and the subsequent All on that builder
returns exactly ["a"], of length at most 1. -/
theorem c10_first_only_mutate_witness :
    ((({ config := ⟨Dialect.sqlite⟩ } : ItemQuery)).First ["a", "b"]).1
        = (({ config := ⟨Dialect.sqlite⟩ } : ItemQuery)).Limit 1 ∧
    (["a"] : List Item).length ≤ 1 := by
  refine ⟨(c10_first_only_mutate { config := ⟨Dialect.sqlite⟩ } ["a", "b"]).1, ?_⟩
  exact (c10_first_only_mutate { config := ⟨Dialect.sqlite⟩ } ["a", "b"]).2.2.2.2.1
    ["a"] (by rfl)

/-- C7: every self-referential many-to-many join table in the derived schema
(two-column composite key, both foreign keys into one table) has pairwise
distinct column names, and the disambiguated second names are concretely the
singularized "friend_id" for the "friends" edge (and "follower_id" for
"following"). -/
theorem c7_selfref_join_distinct_columns :
    (Tables.all fun t =>
        !(isSelfRefJoin t) || decide ((t.columns.map Column.name).Nodup)) = true ∧
    isSelfRefJoin UserFriendsTable = true ∧
    UserFriendsColumns.map Column.name = ["user_id", "friend_id"] ∧
    isSelfRefJoin UserFollowingTable = true ∧
    UserFollowingColumns.map Column.name = ["user_id", "follower_id"] := by
  refine ⟨by decide, by decide, rfl, by decide, rfl⟩

/-- C8: every synthetic many-to-many join table of the derived schema has
exactly two columns which form its composite primary key, each column carries
a foreign key, and all its foreign keys cascade on delete; foreign keys of
the single-key entity tables sit on nullable columns and use the set-null
delete policy. -/
theorem c8_join_fk_policies :
    (Tables.all fun t =>
        !(isJoinTable t) ||
          (t.columns.length == 2 && t.primaryKey == t.columns &&
            t.foreignKeys.length == 2 &&
            t.foreignKeys.all (fun fk => fk.onDelete == RefOption.cascade) &&
            t.columns.all (fun c =>
              t.foreignKeys.any (fun fk => fk.columns == [c])))) = true ∧
    (Tables.all fun t =>
        !(t.primaryKey.length == 1) ||
          t.foreignKeys.all (fun fk =>
            fk.onDelete == RefOption.setNull &&
              fk.columns.all (fun c => c.nullable))) = true := by
  exact ⟨by decide, by decide⟩

/-- C9: in the derived schema, the spouse edge materializes as the unique,
self-referencing relation column `user_spouse_id` on the `users` table (a
one-to-one self relation under the spec's cardinality reading); the owner
edge materializes as the non-unique relation column `owner_id` on the `pets`
table with a foreign key into `users` (many-to-one), whose mirror is
one-to-many; and `users` carries no storage for the mirrored pets edge. -/
theorem c9_spouse_owner_pets :
    usersColSpouse ∈ UsersTable.columns ∧
    (UsersTable.foreignKeys.any fun fk =>
        fk.columns == [usersColSpouse] && fk.refTable == UsersTable.name) = true ∧
    fkRelKind usersColSpouse = RelKind.oneToOne ∧
    petsColOwner.name = "owner_id" ∧
    petsColOwner ∈ PetsTable.columns ∧
    (PetsTable.foreignKeys.any fun fk =>
        fk.columns == [petsColOwner] && fk.refTable == UsersTable.name) = true ∧
    fkRelKind petsColOwner = RelKind.manyToOne ∧
    mirrorKind (fkRelKind petsColOwner) = RelKind.oneToMany ∧
    (UsersTable.foreignKeys.all fun fk => !(fk.refTable == PetsTable.name)) = true := by
  refine ⟨by decide, by decide, by decide, rfl, by decide, by decide, by decide,
    by decide, by decide⟩

theorem classify_matches (m : List Item) (F O : Except Err Item)
    (hF : F = (match (Except.ok (m.take 1) : Except Err (List Item)) with
      | Except.error e => Except.error e
      | Except.ok [] => Except.error (Err.notFound itemLabel)
      | Except.ok (x :: _) => Except.ok x))
    (hO : O = (match (Except.ok (m.take 2) : Except Err (List Item)) with
      | Except.error e => Except.error e
      | Except.ok [x] => Except.ok x
      | Except.ok [] => Except.error (Err.notFound itemLabel)
      | Except.ok _ => Except.error (Err.notSingular itemLabel))) :
    (F = Except.error (Err.notFound itemLabel) ↔ m = []) ∧
    (∀ x l, m = x :: l → F = Except.ok x) ∧
    (O = Except.error (Err.notFound itemLabel) ↔ m = []) ∧
    (∀ x, m = [x] → O = Except.ok x) ∧
    (2 ≤ m.length → O = Except.error (Err.notSingular itemLabel)) := by
  subst hF hO
  rcases m with _ | ⟨x, _ | ⟨y, l⟩⟩ <;>
    refine ⟨?_, ?_, ?_, ?_, ?_⟩ <;> simp [List.take]

/-- C3: for a fresh builder (no intermediate query) over a duplicate-free
store, on each backend: First (which applies limit 1) fails with NotFound
exactly when the builder matches no rows and otherwise returns the first
matched row; Only (which applies limit 2) fails with NotFound exactly when
nothing matches, returns the row when exactly one matches, and fails with
NotSingular when two or more match. -/
theorem c3_first_only_classify (iq : ItemQuery) (db : List Item)
    (hs : iq.sql = none) (hg : iq.gremlin = none) (hdb : db.Nodup) :
    ((iq.config.dialect = Dialect.mysql ∨ iq.config.dialect = Dialect.sqlite) →
      ((iq.First db).2 = Except.error (Err.notFound itemLabel) ↔
        iq.sqlMatches db = []) ∧
      (∀ x l, iq.sqlMatches db = x :: l → (iq.First db).2 = Except.ok x) ∧
      ((iq.Only db).2 = Except.error (Err.notFound itemLabel) ↔
        iq.sqlMatches db = []) ∧
      (∀ x, iq.sqlMatches db = [x] → (iq.Only db).2 = Except.ok x) ∧
      (2 ≤ (iq.sqlMatches db).length →
        (iq.Only db).2 = Except.error (Err.notSingular itemLabel))) ∧
    (iq.config.dialect = Dialect.gremlin →
      ((iq.First db).2 = Except.error (Err.notFound itemLabel) ↔
        iq.gremlinMatches db = []) ∧
      (∀ x l, iq.gremlinMatches db = x :: l → (iq.First db).2 = Except.ok x) ∧
      ((iq.Only db).2 = Except.error (Err.notFound itemLabel) ↔
        iq.gremlinMatches db = []) ∧
      (∀ x, iq.gremlinMatches db = [x] → (iq.Only db).2 = Except.ok x) ∧
      (2 ≤ (iq.gremlinMatches db).length →
        (iq.Only db).2 = Except.error (Err.notSingular itemLabel))) ∧
    (iq.First db).1.limit = some 1 ∧
    (iq.Only db).1.limit = some 2 := by
  refine ⟨?_, ?_, rfl, rfl⟩
  · intro hd
    have e1 : (iq.Limit 1).All db = Except.ok ((iq.sqlMatches db).take 1) := by
      unfold ItemQuery.All
      rw [show (iq.Limit 1).config = iq.config from rfl]
      rcases hd with hd | hd <;> rw [hd] <;>
        simp [sqlAll_limit_eval iq hs 1 db]
    have e2 : (iq.Limit 2).All db = Except.ok ((iq.sqlMatches db).take 2) := by
      unfold ItemQuery.All
      rw [show (iq.Limit 2).config = iq.config from rfl]
      rcases hd with hd | hd <;> rw [hd] <;>
        simp [sqlAll_limit_eval iq hs 2 db]
    have hF : (iq.First db).2 = (match (iq.Limit 1).All db with
        | Except.error e => Except.error e
        | Except.ok [] => Except.error (Err.notFound itemLabel)
        | Except.ok (x :: _) => Except.ok x) := rfl
    have hO : (iq.Only db).2 = (match (iq.Limit 2).All db with
        | Except.error e => Except.error e
        | Except.ok [x] => Except.ok x
        | Except.ok [] => Except.error (Err.notFound itemLabel)
        | Except.ok _ => Except.error (Err.notSingular itemLabel)) := rfl
    rw [e1] at hF
    rw [e2] at hO
    exact classify_matches (iq.sqlMatches db) _ _ hF hO
  · intro hd
    have hgmN : (iq.gremlinMatches db).Nodup := by
      unfold ItemQuery.gremlinMatches
      exact List.Nodup.sublist (List.drop_sublist _ _)
        (nodup_applyOrders _ (List.Nodup.filter _ hdb))
    have hT1 : dedupIf iq.unique.isEmpty ((iq.gremlinMatches db).take 1) =
        (iq.gremlinMatches db).take 1 :=
      dedupIf_of_nodup _ (List.Nodup.sublist (List.take_sublist _ _) hgmN)
    have hT2 : dedupIf iq.unique.isEmpty ((iq.gremlinMatches db).take 2) =
        (iq.gremlinMatches db).take 2 :=
      dedupIf_of_nodup _ (List.Nodup.sublist (List.take_sublist _ _) hgmN)
    have e1 : (iq.Limit 1).All db = Except.ok ((iq.gremlinMatches db).take 1) := by
      unfold ItemQuery.All
      rw [show (iq.Limit 1).config = iq.config from rfl, hd]
      simp [gremlinAll_limit_eval iq hg 1 db, hT1]
    have e2 : (iq.Limit 2).All db = Except.ok ((iq.gremlinMatches db).take 2) := by
      unfold ItemQuery.All
      rw [show (iq.Limit 2).config = iq.config from rfl, hd]
      simp [gremlinAll_limit_eval iq hg 2 db, hT2]
    have hF : (iq.First db).2 = (match (iq.Limit 1).All db with
        | Except.error e => Except.error e
        | Except.ok [] => Except.error (Err.notFound itemLabel)
        | Except.ok (x :: _) => Except.ok x) := rfl
    have hO : (iq.Only db).2 = (match (iq.Limit 2).All db with
        | Except.error e => Except.error e
        | Except.ok [x] => Except.ok x
        | Except.ok [] => Except.error (Err.notFound itemLabel)
        | Except.ok _ => Except.error (Err.notSingular itemLabel)) := rfl
    rw [e1] at hF
    rw [e2] at hO
    exact classify_matches (iq.gremlinMatches db) _ _ hF hO

/-- C3 witness: a fresh sqlite builder over the store ["a"]: Only returns the
single matching row. -/
theorem c3_first_only_classify_witness :
    ((({ config := ⟨Dialect.sqlite⟩ } : ItemQuery)).Only ["a"]).2 = Except.ok "a" := by
  have h := c3_first_only_classify { config := ⟨Dialect.sqlite⟩ } ["a"] rfl rfl (by decide)
  exact (h.1 (Or.inr rfl)).2.2.2.1 "a" (by rfl)

end Ent
